import Mathlib

/-!
Shallow embedding of the streaming extraction engine in
`src/raw_extraction/pipeline_engine.py` and of the orchestration layer in
`src/raw_extraction/run_job.py`, together with theorems settling the
specification claims about them.

Modelling conventions:
* a pandas `DataFrame` chunk is a `DataFrame`: a column schema plus a list
  of rows (cells kept abstract as strings);
* a Python generator that may raise while being pulled is a pair of the
  list of batches it yields and an `Option String` error raised when the
  consumer pulls past the last yielded batch;
* file-system effects are explicit: a writer result records the content at
  the destination path as an `Option` (by the source, `pq.ParquetWriter`
  is constructed — creating the file — only on the first chunk, and
  `DataFrame.to_csv` runs only inside the loop, so `none` means no file
  was created);
* a Python function with no `return` statement returns `None`; this is the
  constantly-`none` field `retval`.
-/

namespace Pipeline

/-- Column schema of a batch (ordered column names). -/
structure Schema where
  cols : List String
deriving DecidableEq, Repr

/-- One pandas chunk: a schema and its rows. -/
structure DataFrame where
  schema : Schema
  rows : List (List String)
deriving DecidableEq, Repr

/-- Total number of rows across a list of batches. -/
def sumRows (bs : List DataFrame) : Nat :=
  (bs.map (fun df => df.rows.length)).sum

/-- Chunking behaviour of `pd.read_sql(..., chunksize=c)`: the row list is cut
into consecutive chunks of `c` rows, the last one possibly shorter; an empty
result set yields no chunk.  (Meaningful for `c ≥ 1`, matching pandas.) -/
def read_sql_chunks (c : Nat) : List α → List (List α)
  | [] => []
  | x :: xs => (x :: xs.take (c - 1)) :: read_sql_chunks c (xs.drop (c - 1))
termination_by l => l.length
decreasing_by simp [List.length_drop]; omega

/-- Embedding of `DataPipelineEngine.stream_data`: yields `DataFrame` chunks of
the rows of the query result, in source order, `chunk_size` rows at a time. -/
def stream_data (schema : Schema) (resultRows : List (List String))
    (chunk_size : Nat) : List DataFrame :=
  (read_sql_chunks chunk_size resultRows).map (fun rs => { schema := schema, rows := rs })

end Pipeline

namespace Pipeline

/-- Loop body state of `write_parquet_stream`: the `ParquetWriter`, if already
constructed, holds the schema it was opened with and the row groups written. -/
def pqLoop (writer : Option (Schema × List DataFrame)) :
    List DataFrame → Option (Schema × List DataFrame)
  | [] => writer
  | df :: rest =>
    -- `if writer is None: writer = pq.ParquetWriter(output_path, table.schema, ...)`
    let w :=
      match writer with
      | none => (df.schema, [])
      | some w => w
    -- the schema-consistency check `if not table.schema.equals(...): pass` has no effect
    -- `writer.write_table(table)`
    pqLoop (some (w.1, w.2 ++ [df])) rest

/-- Content of the Parquet file at the output path. -/
structure ParquetFile where
  fileSchema : Schema
  rowGroups : List DataFrame
  compression : String
deriving DecidableEq, Repr

/-- Observable outcome of one `write_parquet_stream` call. -/
structure PqResult where
  /-- Content at `output_path`; `none` when no `ParquetWriter` was ever constructed. -/
  file : Option ParquetFile
  /-- Whether `writer.close()` was called. -/
  handleClosed : Bool
  /-- Whether `pbar.close()` was called. -/
  pbarClosed : Bool
  /-- Rows accumulated by `pbar.update(len(df_chunk))` over consumed chunks. -/
  pbarCount : Nat
  /-- Display total handed to `tqdm(total=total_rows, ...)`; informational only. -/
  pbarTotal : Nat
  /-- Exception propagating out of the call, if any. -/
  error : Option String
  /-- Python return value; the function has no `return` statement. -/
  retval : Option Nat
deriving DecidableEq, Repr

/-- Embedding of `DataPipelineEngine.write_parquet_stream`.  `streamErr` is the
exception the generator raises when pulled past its last yielded batch
(`none` when it terminates normally).  There is no `try/finally`: on an
exception neither `writer.close()` nor `pbar.close()` runs. -/
def write_parquet_stream (batches : List DataFrame) (streamErr : Option String)
    (compression : String) (total_rows : Nat) : PqResult :=
  let writer := pqLoop none batches
  let file := writer.map (fun w => ParquetFile.mk w.1 w.2 compression)
  match streamErr with
  | some e =>
    { file := file, handleClosed := false, pbarClosed := false,
      pbarCount := sumRows batches, pbarTotal := total_rows,
      error := some e, retval := none }
  | none =>
    -- `if writer: writer.close()` then `pbar.close()`
    { file := file, handleClosed := writer.isSome, pbarClosed := true,
      pbarCount := sumRows batches, pbarTotal := total_rows,
      error := none, retval := none }

/-- One line of the CSV artifact. -/
inductive CsvLine where
  | header (cols : List String)
  | row (cells : List String)
deriving DecidableEq, Repr

/-- Whether a CSV line is a header line. -/
def CsvLine.isHeader : CsvLine → Bool
  | .header _ => true
  | .row _ => false

/-- Loop of `write_csv_stream`: first iteration runs `to_csv` with
`to_csv` in write mode with the header enabled (creating the file with a
header line), later iterations in append mode with the header disabled
(appending rows only). -/
def csvLoop (file : Option (List CsvLine)) : List DataFrame → Option (List CsvLine)
  | [] => file
  | df :: rest =>
    match file with
    | none =>
      csvLoop (some (CsvLine.header df.schema.cols :: df.rows.map CsvLine.row)) rest
    | some ls =>
      csvLoop (some (ls ++ df.rows.map CsvLine.row)) rest

/-- Observable outcome of one `write_csv_stream` call. -/
structure CsvResult where
  /-- Content at `output_path`; `none` when `to_csv` never ran. -/
  file : Option (List CsvLine)
  /-- Whole-file compression wrapper handed to `to_csv` (default `None`). -/
  compression : Option String
  /-- Whether `pbar.close()` was called. -/
  pbarClosed : Bool
  /-- Rows accumulated by `pbar.update(len(df_chunk))` over consumed chunks. -/
  pbarCount : Nat
  /-- Display total handed to `tqdm(total=total_rows, ...)`; informational only. -/
  pbarTotal : Nat
  /-- Exception propagating out of the call, if any. -/
  error : Option String
  /-- Python return value; the function has no `return` statement. -/
  retval : Option Nat
deriving DecidableEq, Repr

/-- Embedding of `DataPipelineEngine.write_csv_stream`. -/
def write_csv_stream (batches : List DataFrame) (streamErr : Option String)
    (compression : Option String) (total_rows : Nat) : CsvResult :=
  let file := csvLoop none batches
  match streamErr with
  | some e =>
    { file := file, compression := compression, pbarClosed := false,
      pbarCount := sumRows batches, pbarTotal := total_rows,
      error := some e, retval := none }
  | none =>
    { file := file, compression := compression, pbarClosed := true,
      pbarCount := sumRows batches, pbarTotal := total_rows,
      error := none, retval := none }

/-- One entry of the `connections` section of the configuration document. -/
structure ConnConfig where
  drivername : String
  username : String
  host : String
  port : Nat
  database : String
  password_env_var : String
deriving DecidableEq, Repr

/-- A SQLAlchemy engine as built by `create_engine(URL.create(...))`; the
handle is lazy, so constructing it makes no network connection. -/
structure Engine where
  drivername : String
  username : String
  password : String
  host : String
  port : Nat
  database : String
deriving DecidableEq, Repr

/-- Exceptions `get_connection_engine` can raise. -/
inductive PipelineError where
  /-- Raised as ValueError: Connection <name> undefined. -/
  | valueError (msg : String)
  /-- Raised as PermissionError: Missing Env Var: <env_var>. -/
  | permissionError (msg : String)
deriving DecidableEq, Repr

/-- Python `str.strip()`: removes leading and trailing whitespace. -/
def strip (s : String) : String :=
  String.mk (((s.data.dropWhile Char.isWhitespace).reverse.dropWhile Char.isWhitespace).reverse)

/-- The engine cache `self.engines_cache`, keyed by connection name. -/
abbrev Cache := List (String × Engine)

/-- The `connections` mapping from the loaded YAML configuration. -/
structure Config where
  connections : List (String × ConnConfig)
deriving DecidableEq, Repr

/-- Embedding of `DataPipelineEngine.get_connection_engine`.  The process
environment is a partial map (`os.getenv` returns `None` when the variable
is unset).  The result pairs the returned engine or raised exception with
the cache state after the call; the cache is mutated only on success. -/
def get_connection_engine (config : Config) (env : String → Option String)
    (cache : Cache) (connection_name : String) :
    Except PipelineError Engine × Cache :=
  match cache.lookup connection_name with
  | some engine => (.ok engine, cache)
  | none =>
    match config.connections.lookup connection_name with
    | none =>
      (.error (.valueError ("Connection " ++ connection_name ++ " undefined.")), cache)
    | some conn_config =>
      -- env_var is the password_env_var config entry (default empty), stripped
      let env_var := strip conn_config.password_env_var
      -- `password = os.getenv(env_var)` / `if not password: raise PermissionError`
      match env env_var with
      | none => (.error (.permissionError ("Missing Env Var: " ++ env_var)), cache)
      | some password =>
        if password = "" then
          (.error (.permissionError ("Missing Env Var: " ++ env_var)), cache)
        else
          let engine : Engine :=
            { drivername := conn_config.drivername, username := conn_config.username,
              password := password, host := conn_config.host,
              port := conn_config.port, database := conn_config.database }
          (.ok engine, (connection_name, engine) :: cache)

/-- The count query string built by `get_total_rows`. -/
def count_query (query : String) : String :=
  "SELECT COUNT(*) FROM (" ++ query ++ ") as subquery"

/-- Embedding of `DataPipelineEngine.get_total_rows`.  The database is a map
from query text to either a scalar result or a raised error; the
`try/except` catches every error, logs a warning and returns `0`. -/
def get_total_rows (db : String → Except String Nat) (query : String) : Nat :=
  match db (count_query query) with
  | .ok result => result
  | .error _ => 0

/-- The metadata record `run_job.main` dumps to `metadata.json`
(provenance/duration/command fields elided: they carry no claim content). -/
structure Metadata where
  job : String
  version : String
  format : String
  rows : Nat
deriving DecidableEq, Repr

/-- Observable outcome of the execution section of `run_job.main`
(lines 90-134: count, stream, write, metadata, error cleanup). -/
structure RunOutcome where
  /-- Whether the data file exists at `output_file` after the run. -/
  dataFileExists : Bool
  /-- The metadata record written on success, `none` on failure. -/
  metadata : Option Metadata
  /-- Process exit status (`sys.exit(1)` on failure, `0` otherwise). -/
  exitCode : Nat
  /-- Rows actually consumed and written by the writer. -/
  rowsWritten : Nat
deriving DecidableEq, Repr

/-- Embedding of the execution section of `run_job.main`: computes the
advisory `total_rows`, writes the stream in the chosen format, and on any
exception deletes the partial data file (`if output_file.exists():
os.remove(output_file)`) and exits non-zero; on success writes the
metadata record with `"rows": total_rows`. -/
def run_job_main (jobName versionId output_fmt : String)
    (db : String → Except String Nat) (query : String)
    (batches : List DataFrame) (streamErr : Option String)
    (compression : String) : RunOutcome :=
  let total_rows := get_total_rows db query
  let wr :=
    if output_fmt = "parquet" then
      let r := write_parquet_stream batches streamErr compression total_rows
      (r.file.isSome, r.error, r.pbarCount)
    else
      let r := write_csv_stream batches streamErr none total_rows
      (r.file.isSome, r.error, r.pbarCount)
  match wr.2.1 with
  | some _ =>
    -- `except Exception: if output_file.exists(): os.remove(output_file); sys.exit(1)`
    { dataFileExists := if wr.1 then false else wr.1,
      metadata := none, exitCode := 1, rowsWritten := wr.2.2 }
  | none =>
    { dataFileExists := wr.1,
      metadata := some { job := jobName, version := versionId,
                         format := output_fmt, rows := total_rows },
      exitCode := 0, rowsWritten := wr.2.2 }

/-- Number of data rows stored in the Parquet artifact (0 when no file). -/
def pqRowCount (r : PqResult) : Nat :=
  match r.file with
  | none => 0
  | some f => sumRows f.rowGroups

/-- Number of non-header lines in the CSV artifact (0 when no file). -/
def csvRowCount (r : CsvResult) : Nat :=
  match r.file with
  | none => 0
  | some ls => ls.countP (fun l => !CsvLine.isHeader l)

/- === Lemmas about the chunking of the row stream === -/

theorem read_sql_chunks_flatten_aux (c : Nat) :
    ∀ (n : Nat) (l : List α), l.length ≤ n → (read_sql_chunks c l).flatten = l := by
  intro n
  induction n with
  | zero =>
    intro l h
    have hl : l = [] := List.length_eq_zero.mp (Nat.le_zero.mp h)
    subst hl
    simp [read_sql_chunks]
  | succ n ih =>
    intro l h
    match l with
    | [] => simp [read_sql_chunks]
    | x :: xs =>
      have hlen : (xs.drop (c - 1)).length ≤ n := by
        have := List.length_drop (c - 1) xs
        simp only [List.length_cons] at h
        omega
      rw [read_sql_chunks]
      rw [List.flatten_cons, ih (xs.drop (c - 1)) hlen]
      simp [List.take_append_drop]

/-- The chunks of `read_sql_chunks`, concatenated, give back the original row
list: chunking neither reorders, drops nor duplicates rows. -/
theorem read_sql_chunks_flatten (c : Nat) (l : List α) :
    (read_sql_chunks c l).flatten = l :=
  read_sql_chunks_flatten_aux c l.length l (Nat.le_refl _)

theorem read_sql_chunks_sum_length (c : Nat) (l : List α) :
    ((read_sql_chunks c l).map List.length).sum = l.length := by
  have h := congrArg List.length (read_sql_chunks_flatten c l)
  rwa [List.length_flatten] at h

theorem read_sql_chunks_length_le_aux (c : Nat) (hc : 1 ≤ c) :
    ∀ (n : Nat) (l : List α), l.length ≤ n →
      ∀ ch ∈ read_sql_chunks c l, ch.length ≤ c := by
  intro n
  induction n with
  | zero =>
    intro l h
    have hl : l = [] := List.length_eq_zero.mp (Nat.le_zero.mp h)
    subst hl
    simp [read_sql_chunks]
  | succ n ih =>
    intro l h ch hch
    match l with
    | [] => simp [read_sql_chunks] at hch
    | x :: xs =>
      rw [read_sql_chunks] at hch
      rcases List.mem_cons.mp hch with h1 | h2
      · subst h1
        have := List.length_take (c - 1) xs
        simp only [List.length_cons]
        omega
      · have hlen : (xs.drop (c - 1)).length ≤ n := by
          have := List.length_drop (c - 1) xs
          simp only [List.length_cons] at h
          omega
        exact ih (xs.drop (c - 1)) hlen ch h2

/-- Every chunk produced for a chunk size `c ≥ 1` holds at most `c` rows. -/
theorem read_sql_chunks_length_le (c : Nat) (hc : 1 ≤ c) (l : List α) :
    ∀ ch ∈ read_sql_chunks c l, ch.length ≤ c :=
  read_sql_chunks_length_le_aux c hc l.length l (Nat.le_refl _)

theorem read_sql_chunks_replicate_add (c n : Nat) (hc : 1 ≤ c) (a : α) :
    read_sql_chunks c (List.replicate (c + n) a) =
      List.replicate c a :: read_sql_chunks c (List.replicate n a) := by
  have hcn : c + n = (c - 1 + n) + 1 := by omega
  rw [hcn, List.replicate_succ, read_sql_chunks]
  rw [List.take_replicate, List.drop_replicate]
  have hmin : min (c - 1) (c - 1 + n) = c - 1 := by omega
  have hsub : c - 1 + n - (c - 1) = n := by omega
  rw [hmin, hsub]
  have hrep : a :: List.replicate (c - 1) a = List.replicate c a := by
    rw [← List.replicate_succ]
    congr 1
    omega
  rw [hrep]

theorem read_sql_chunks_replicate_last (c n : Nat) (h1 : 1 ≤ n) (h2 : n ≤ c) (a : α) :
    read_sql_chunks c (List.replicate n a) = [List.replicate n a] := by
  have hn : n = (n - 1) + 1 := by omega
  rw [hn, List.replicate_succ, read_sql_chunks]
  rw [List.take_replicate, List.drop_replicate]
  have hmin : min (c - 1) (n - 1) = n - 1 := by omega
  have hsub : n - 1 - (c - 1) = 0 := by omega
  rw [hmin, hsub]
  rw [List.replicate_zero, read_sql_chunks]

/- === Lemmas about the writer loops === -/

theorem pqLoop_some (bs : List DataFrame) :
    ∀ (s : Schema) (gs : List DataFrame),
      pqLoop (some (s, gs)) bs = some (s, gs ++ bs) := by
  induction bs with
  | nil => intro s gs; simp [pqLoop]
  | cons b bs ih =>
    intro s gs
    rw [pqLoop, ih]
    simp

theorem pqLoop_cons (b : DataFrame) (bs : List DataFrame) :
    pqLoop none (b :: bs) = some (b.schema, b :: bs) := by
  rw [pqLoop, pqLoop_some]
  simp

theorem csvLoop_some (bs : List DataFrame) :
    ∀ (ls : List CsvLine),
      csvLoop (some ls) bs =
        some (ls ++ (bs.map (fun df => df.rows.map CsvLine.row)).flatten) := by
  induction bs with
  | nil => intro ls; simp [csvLoop]
  | cons b bs ih =>
    intro ls
    rw [csvLoop, ih]
    simp

theorem csvLoop_cons (b : DataFrame) (bs : List DataFrame) :
    csvLoop none (b :: bs) =
      some (CsvLine.header b.schema.cols ::
        (b.rows.map CsvLine.row ++ (bs.map (fun df => df.rows.map CsvLine.row)).flatten)) := by
  rw [csvLoop, csvLoop_some]
  simp

theorem csv_row_lines_no_header (bs : List DataFrame) :
    ∀ l ∈ (bs.map (fun df => df.rows.map CsvLine.row)).flatten,
      CsvLine.isHeader l = false := by
  intro l hl
  rcases List.mem_flatten.mp hl with ⟨sub, hsub, hmem⟩
  rcases List.mem_map.mp hsub with ⟨df, _, rfl⟩
  rcases List.mem_map.mp hmem with ⟨cells, _, rfl⟩
  rfl

theorem csv_row_lines_length (bs : List DataFrame) :
    ((bs.map (fun df => df.rows.map CsvLine.row)).flatten).length = sumRows bs := by
  rw [List.length_flatten, List.map_map]
  unfold sumRows
  congr 1
  apply List.map_congr_left
  intro df _
  simp [Function.comp]

theorem sumRows_stream_data (schema : Schema) (rows : List (List String)) (c : Nat) :
    sumRows (stream_data schema rows c) = rows.length := by
  unfold sumRows stream_data
  rw [List.map_map]
  have : ((fun df : DataFrame => df.rows.length) ∘ fun rs => DataFrame.mk schema rs)
      = List.length := rfl
  rw [this]
  exact read_sql_chunks_sum_length c rows

/- === Claim theorems === -/

/-- C2 counterexample: on an empty batch sequence neither writer raises, but
neither creates any file at the destination path (the ParquetWriter is only
constructed on the first chunk and `to_csv` only runs inside the loop), so
no output file exists after the call, contrary to the claim. -/
theorem C2_counterexample :
    (write_parquet_stream [] none "snappy" 0).error = none
    ∧ (write_parquet_stream [] none "snappy" 0).file = none
    ∧ (write_csv_stream [] none none 0).error = none
    ∧ (write_csv_stream [] none none 0).file = none := by
  decide

/-- C2 (amended): for every compression option and progress total, both
writer variants tolerate an empty batch sequence without failing, but no
output artifact is produced: no file exists at the destination path after
the call. -/
theorem C2_empty_stream_no_artifact (cmp : String) (cmpOpt : Option String)
    (t t2 : Nat) :
    (write_parquet_stream [] none cmp t).error = none
    ∧ (write_parquet_stream [] none cmp t).file = none
    ∧ (write_csv_stream [] none cmpOpt t2).error = none
    ∧ (write_csv_stream [] none cmpOpt t2).file = none :=
  ⟨rfl, rfl, rfl, rfl⟩

/-- C3 counterexample: the batch sequence raises after one batch was
written; the ParquetWriter handle was opened (the file exists) yet the
exception propagates without `writer.close()` having run, contrary to the
claim that the handle is closed on every error path. -/
theorem C3_counterexample :
    (write_parquet_stream [⟨⟨["a"]⟩, [["1"]]⟩] (some "network loss") "snappy" 0).file.isSome
        = true
    ∧ (write_parquet_stream [⟨⟨["a"]⟩, [["1"]]⟩] (some "network loss") "snappy" 0).handleClosed
        = false
    ∧ (write_parquet_stream [⟨⟨["a"]⟩, [["1"]]⟩] (some "network loss") "snappy" 0).error
        = some "network loss" := by
  decide

/-- C3 (amended): `write_parquet_stream` has no `try/finally`; for every
exception raised while pulling a batch the exception propagates to the
caller and `writer.close()` is never called, so an opened handle stays
open. -/
theorem C3_error_propagates_with_handle_open (batches : List DataFrame) (e : String)
    (cmp : String) (t : Nat) :
    (write_parquet_stream batches (some e) cmp t).error = some e
    ∧ (write_parquet_stream batches (some e) cmp t).handleClosed = false :=
  ⟨rfl, rfl⟩

/-- C5: for every run whose batch sequence raises after `m ≥ 0` batches were
written, the top-level handler of `run_job.main` removes the partial data
file and exits with status 1, so the destination data file does not exist
after the run, in either output format. -/
theorem C5_cleanup_on_stream_error (jobName versionId output_fmt : String)
    (db : String → Except String Nat) (query : String)
    (batches : List DataFrame) (e : String) (compression : String) :
    (run_job_main jobName versionId output_fmt db query batches (some e)
        compression).dataFileExists = false
    ∧ (run_job_main jobName versionId output_fmt db query batches (some e)
        compression).exitCode = 1 := by
  unfold run_job_main
  by_cases hf : output_fmt = "parquet" <;>
    simp only [hf, if_true, if_false, write_parquet_stream, write_csv_stream] <;>
    cases (pqLoop none batches).isSome <;> cases (csvLoop none batches).isSome <;> simp

/-- C8: for every input on which the wrapped COUNT query fails,
`get_total_rows` does not propagate the error and returns 0. -/
theorem C8_count_failure_returns_zero (db : String → Except String Nat) (query e : String)
    (h : db (count_query query) = .error e) :
    get_total_rows db query = 0 := by
  unfold get_total_rows
  rw [h]

/-- C8 witness: against a database on which every query fails, the count
estimate of a malformed query is 0. -/
theorem C8_count_failure_returns_zero_witness :
    (fun _ : String => (Except.error "malformed subquery" : Except String Nat))
        (count_query "SELECT broken") = .error "malformed subquery"
    ∧ get_total_rows (fun _ => .error "malformed subquery") "SELECT broken" = 0 :=
  ⟨rfl, C8_count_failure_returns_zero _ "SELECT broken" "malformed subquery" rfl⟩

/-- C4: when a connection name is not cached, is present in the
configuration, and its credential environment variable is unset or resolves
to the empty string, `get_connection_engine` raises `PermissionError`
before any engine handle is constructed, and the cache is left untouched
(no partial side effects). -/
theorem C4_missing_credential_fails_before_connection (config : Config)
    (env : String → Option String) (cache : Cache) (connection_name : String)
    (cc : ConnConfig)
    (hcache : cache.lookup connection_name = none)
    (hconf : config.connections.lookup connection_name = some cc)
    (henv : env (strip cc.password_env_var) = none
            ∨ env (strip cc.password_env_var) = some "") :
    get_connection_engine config env cache connection_name
      = (.error (.permissionError ("Missing Env Var: " ++ strip cc.password_env_var)),
         cache) := by
  unfold get_connection_engine
  rw [hcache, hconf]
  dsimp only
  rcases henv with h | h
  · rw [h]
  · rw [h]
    simp

/-- C4 witness: a fresh engine with one configured connection whose
credential variable is absent from the environment. -/
theorem C4_missing_credential_witness :
    get_connection_engine
        ⟨[("analytics", ⟨"postgresql", "user", "host", 5432, "db", "PG_PW"⟩)]⟩
        (fun _ => none) [] "analytics"
      = (.error (.permissionError "Missing Env Var: PG_PW"), []) :=
  C4_missing_credential_fails_before_connection
    ⟨[("analytics", ⟨"postgresql", "user", "host", 5432, "db", "PG_PW"⟩)]⟩
    (fun _ => none) [] "analytics"
    ⟨"postgresql", "user", "host", 5432, "db", "PG_PW"⟩ rfl rfl (Or.inl rfl)

/-- C7: a CSV output produced from `k ≥ 1` batches contains exactly one
header line — the header derived from the first batch's schema, written
first — regardless of how many batches follow; subsequent batches
contribute data rows only. -/
theorem C7_single_header_line (b : DataFrame) (bs : List DataFrame)
    (cmp : Option String) (t : Nat) :
    ∃ ls, (write_csv_stream (b :: bs) none cmp t).file = some ls
      ∧ ls.countP CsvLine.isHeader = 1
      ∧ ls.head? = some (CsvLine.header b.schema.cols) := by
  have hfile : (write_csv_stream (b :: bs) none cmp t).file
      = some (CsvLine.header b.schema.cols ::
          (b.rows.map CsvLine.row ++ (bs.map (fun df => df.rows.map CsvLine.row)).flatten)) := by
    simp [write_csv_stream, csvLoop_cons]
  refine ⟨_, hfile, ?_, by simp⟩
  have hz : (b.rows.map CsvLine.row
      ++ (bs.map (fun df => df.rows.map CsvLine.row)).flatten).countP CsvLine.isHeader = 0 := by
    rw [List.countP_eq_zero]
    intro a ha
    rcases List.mem_append.mp ha with h1 | h1
    · rcases List.mem_map.mp h1 with ⟨cells, _, rfl⟩
      simp [CsvLine.isHeader]
    · have := csv_row_lines_no_header bs a h1
      simp [this]
  rw [List.countP_cons_of_pos _ _ (by rfl), hz]

/-- C9: once `get_connection_engine` has succeeded for a name, every later
call with that name hits the cache: it returns the identical handle and
leaves the cache unchanged, independently of the configuration and
environment supplied to the later call, so no config lookup, credential
re-check or handle construction can occur. -/
theorem C9_cached_call_idempotent (config : Config) (env : String → Option String)
    (cache cacheAfter : Cache) (connection_name : String) (engine : Engine)
    (h : get_connection_engine config env cache connection_name = (.ok engine, cacheAfter)) :
    ∀ (config2 : Config) (env2 : String → Option String),
      get_connection_engine config2 env2 cacheAfter connection_name
        = (.ok engine, cacheAfter) := by
  have hlook : cacheAfter.lookup connection_name = some engine := by
    unfold get_connection_engine at h
    split at h
    next e0 heq =>
      simp only [Prod.mk.injEq, Except.ok.injEq] at h
      rw [← h.2, heq, h.1]
    next heq =>
      split at h
      next => simp at h
      next cc hcc =>
        dsimp only at h
        split at h
        next => simp at h
        next pw hpw =>
          split at h
          next => simp at h
          next hne =>
            simp only [Prod.mk.injEq, Except.ok.injEq] at h
            rw [← h.2]
            simp [List.lookup, h.1]
  intro config2 env2
  unfold get_connection_engine
  rw [hlook]

/-- C9 witness: after one successful call, the repeat call returns the
cached handle even against an empty configuration and an empty
environment. -/
theorem C9_cached_call_idempotent_witness :
    get_connection_engine
        ⟨[("db", ⟨"postgresql", "user", "host", 5432, "events", "PW_VAR"⟩)]⟩
        (fun _ => some "secret") [] "db"
      = (.ok ⟨"postgresql", "user", "secret", "host", 5432, "events"⟩,
         [("db", ⟨"postgresql", "user", "secret", "host", 5432, "events"⟩)])
    ∧ get_connection_engine ⟨[]⟩ (fun _ => none)
        [("db", ⟨"postgresql", "user", "secret", "host", 5432, "events"⟩)] "db"
      = (.ok ⟨"postgresql", "user", "secret", "host", 5432, "events"⟩,
         [("db", ⟨"postgresql", "user", "secret", "host", 5432, "events"⟩)]) :=
  ⟨rfl,
   C9_cached_call_idempotent
     ⟨[("db", ⟨"postgresql", "user", "host", 5432, "events", "PW_VAR"⟩)]⟩
     (fun _ => some "secret") []
     [("db", ⟨"postgresql", "user", "secret", "host", 5432, "events"⟩)] "db"
     ⟨"postgresql", "user", "secret", "host", 5432, "events"⟩ rfl
     ⟨[]⟩ (fun _ => none)⟩

/-- C1 counterexample: a stream of one batch holding one row (so `n = 1`) is
fully consumed and written, yet both writers return `None` — not the row
count 1 — because neither Python function has a `return` statement. -/
theorem C1_counterexample :
    (write_parquet_stream [⟨⟨["a"]⟩, [["1"]]⟩] none "snappy" 1).pbarCount = 1
    ∧ (write_parquet_stream [⟨⟨["a"]⟩, [["1"]]⟩] none "snappy" 1).retval ≠ some 1
    ∧ (write_csv_stream [⟨⟨["a"]⟩, [["1"]]⟩] none none 1).pbarCount = 1
    ∧ (write_csv_stream [⟨⟨["a"]⟩, [["1"]]⟩] none none 1).retval ≠ some 1 := by
  decide

/-- C1 (amended): for every chunk size `c ≥ 1` and result set of size `n`,
consuming the chunked batch sequence with either writer writes batches
whose per-batch row counts sum to `n` — in the artifact and in the progress
counter alike — but the write operation returns `None`, not the total row
count. -/
theorem C1_row_totals (schema : Schema) (resultRows : List (List String)) (c : Nat)
    (hc : 1 ≤ c) (cmp : String) (cmpOpt : Option String) (t t2 : Nat) :
    pqRowCount (write_parquet_stream (stream_data schema resultRows c) none cmp t)
        = resultRows.length
    ∧ (write_parquet_stream (stream_data schema resultRows c) none cmp t).pbarCount
        = resultRows.length
    ∧ (write_parquet_stream (stream_data schema resultRows c) none cmp t).retval = none
    ∧ csvRowCount (write_csv_stream (stream_data schema resultRows c) none cmpOpt t2)
        = resultRows.length
    ∧ (write_csv_stream (stream_data schema resultRows c) none cmpOpt t2).pbarCount
        = resultRows.length
    ∧ (write_csv_stream (stream_data schema resultRows c) none cmpOpt t2).retval = none := by
  have hsum := sumRows_stream_data schema resultRows c
  refine ⟨?_, hsum, rfl, ?_, hsum, rfl⟩
  · cases hb : stream_data schema resultRows c with
    | nil =>
      rw [hb] at hsum
      simp only [sumRows, List.map_nil, List.sum_nil] at hsum
      simp [pqRowCount, write_parquet_stream, pqLoop, ← hsum]
    | cons b bs =>
      rw [hb] at hsum
      have hfile : (write_parquet_stream (b :: bs) none cmp t).file
          = some ⟨b.schema, b :: bs, cmp⟩ := by
        simp [write_parquet_stream, pqLoop_cons]
      simp [pqRowCount, hfile, hsum]
  · cases hb : stream_data schema resultRows c with
    | nil =>
      rw [hb] at hsum
      simp only [sumRows, List.map_nil, List.sum_nil] at hsum
      simp [csvRowCount, write_csv_stream, csvLoop, ← hsum]
    | cons b bs =>
      rw [hb] at hsum
      have hfile : (write_csv_stream (b :: bs) none cmpOpt t2).file
          = some (CsvLine.header b.schema.cols ::
              ((b :: bs).map (fun df => df.rows.map CsvLine.row)).flatten) := by
        simp [write_csv_stream, csvLoop_cons]
      have hall : ((b :: bs).map (fun df => df.rows.map CsvLine.row)).flatten.countP
          (fun l => !CsvLine.isHeader l)
            = ((b :: bs).map (fun df => df.rows.map CsvLine.row)).flatten.length := by
        rw [List.countP_eq_length]
        intro a ha
        rw [csv_row_lines_no_header (b :: bs) a ha]
        rfl
      have hcount : csvRowCount (write_csv_stream (b :: bs) none cmpOpt t2)
          = ((b :: bs).map (fun df => df.rows.map CsvLine.row)).flatten.length := by
        rw [csvRowCount, hfile]
        dsimp only
        rw [List.countP_cons_of_neg _ _ (by simp [CsvLine.isHeader])]
        exact hall
      rw [hcount, csv_row_lines_length (b :: bs), hsum]

/-- C1 witness: three rows, chunk size 2: both artifacts hold 3 rows, both
progress counters report 3, both writers return `None`. -/
theorem C1_row_totals_witness :
    1 ≤ 2
    ∧ (pqRowCount (write_parquet_stream (stream_data ⟨["a"]⟩ [["1"], ["2"], ["3"]] 2)
          none "snappy" 3) = 3
      ∧ (write_parquet_stream (stream_data ⟨["a"]⟩ [["1"], ["2"], ["3"]] 2)
          none "snappy" 3).pbarCount = 3
      ∧ (write_parquet_stream (stream_data ⟨["a"]⟩ [["1"], ["2"], ["3"]] 2)
          none "snappy" 3).retval = none
      ∧ csvRowCount (write_csv_stream (stream_data ⟨["a"]⟩ [["1"], ["2"], ["3"]] 2)
          none none 3) = 3
      ∧ (write_csv_stream (stream_data ⟨["a"]⟩ [["1"], ["2"], ["3"]] 2)
          none none 3).pbarCount = 3
      ∧ (write_csv_stream (stream_data ⟨["a"]⟩ [["1"], ["2"], ["3"]] 2)
          none none 3).retval = none) :=
  ⟨by decide, C1_row_totals ⟨["a"]⟩ [["1"], ["2"], ["3"]] 2 (by decide) "snappy" none 3 3⟩

/-- C6: for every chunk size `c ≥ 1`, `stream_data` yields batches of at
most `c` rows each whose concatenation, in order, is exactly the source row
list (no reordering, no deduplication); and a 125000-row result at chunk
size 50000 yields exactly 3 batches of 50000, 50000 and 25000 rows. -/
theorem C6_chunk_bound_order_and_scenario (schema : Schema)
    (resultRows : List (List String)) (c : Nat) (hc : 1 ≤ c) (r : List String) :
    (∀ df ∈ stream_data schema resultRows c, df.rows.length ≤ c)
    ∧ ((stream_data schema resultRows c).map DataFrame.rows).flatten = resultRows
    ∧ (stream_data schema (List.replicate 125000 r) 50000).map
        (fun df => df.rows.length) = [50000, 50000, 25000] := by
  refine ⟨?_, ?_, ?_⟩
  · intro df hdf
    rcases List.mem_map.mp hdf with ⟨ch, hch, rfl⟩
    exact read_sql_chunks_length_le c hc resultRows ch hch
  · unfold stream_data
    rw [List.map_map]
    have hcomp : (DataFrame.rows ∘ fun rs => DataFrame.mk schema rs)
        = (id : List (List String) → List (List String)) := rfl
    rw [hcomp, List.map_id]
    exact read_sql_chunks_flatten c resultRows
  · unfold stream_data
    rw [List.map_map]
    have hcomp : ((fun df : DataFrame => df.rows.length) ∘ fun rs => DataFrame.mk schema rs)
        = (List.length : List (List String) → Nat) := rfl
    rw [hcomp]
    have h1 : List.replicate 125000 r = List.replicate (50000 + 75000) r := by norm_num
    rw [h1, read_sql_chunks_replicate_add 50000 75000 (by norm_num) r]
    have h2 : List.replicate 75000 r = List.replicate (50000 + 25000) r := by norm_num
    rw [h2, read_sql_chunks_replicate_add 50000 25000 (by norm_num) r]
    rw [read_sql_chunks_replicate_last 50000 25000 (by norm_num) (by norm_num) r]
    simp only [List.map_cons, List.map_nil, List.length_replicate]

/-- C6 witness: chunk size 2 over three rows satisfies the bound and order
parts; the 125000-row scenario is instantiated with a concrete row. -/
theorem C6_chunk_witness :
    1 ≤ 2
    ∧ ((∀ df ∈ stream_data ⟨["a"]⟩ [["1"], ["2"], ["3"]] 2, df.rows.length ≤ 2)
      ∧ ((stream_data ⟨["a"]⟩ [["1"], ["2"], ["3"]] 2).map DataFrame.rows).flatten
          = [["1"], ["2"], ["3"]]
      ∧ (stream_data ⟨["a"]⟩ (List.replicate 125000 ["x"]) 50000).map
          (fun df => df.rows.length) = [50000, 50000, 25000]) :=
  ⟨by decide,
   C6_chunk_bound_order_and_scenario ⟨["a"]⟩ [["1"], ["2"], ["3"]] 2 (by decide) ["x"]⟩

/-- C10: on every successful run, the rows field of the metadata record
equals the advisory estimate `get_total_rows` computed before extraction,
not the number of rows actually written; in particular, when the count
query fails while the stream still writes all its rows, the metadata
records 0. -/
theorem C10_metadata_records_estimate (jobName versionId output_fmt : String)
    (db : String → Except String Nat) (query : String)
    (batches : List DataFrame) (compression : String) :
    (run_job_main jobName versionId output_fmt db query batches none compression).metadata.map
        Metadata.rows = some (get_total_rows db query)
    ∧ (run_job_main jobName versionId output_fmt db query batches none compression).rowsWritten
        = sumRows batches
    ∧ (∀ e, db (count_query query) = .error e →
        (run_job_main jobName versionId output_fmt db query batches none
            compression).metadata.map Metadata.rows = some 0) := by
  have h : (run_job_main jobName versionId output_fmt db query batches none
        compression).metadata
          = some ⟨jobName, versionId, output_fmt, get_total_rows db query⟩
      ∧ (run_job_main jobName versionId output_fmt db query batches none
          compression).rowsWritten = sumRows batches := by
    unfold run_job_main
    by_cases hf : output_fmt = "parquet" <;>
      simp [hf, write_parquet_stream, write_csv_stream]
  refine ⟨by rw [h.1]; rfl, h.2, ?_⟩
  intro e he
  rw [h.1]
  show some (get_total_rows db query) = some 0
  unfold get_total_rows
  rw [he]

/-- C10 witness: the count query fails, three rows are written, and the
metadata records 0 rows while the writer consumed 3. -/
theorem C10_metadata_witness :
    (run_job_main "events" "v1" "parquet" (fun _ => .error "malformed") "SELECT x"
        [⟨⟨["a"]⟩, [["1"], ["2"], ["3"]]⟩] none "snappy").metadata.map Metadata.rows
      = some (get_total_rows (fun _ => .error "malformed") "SELECT x")
    ∧ (run_job_main "events" "v1" "parquet" (fun _ => .error "malformed") "SELECT x"
        [⟨⟨["a"]⟩, [["1"], ["2"], ["3"]]⟩] none "snappy").rowsWritten = 3
    ∧ (run_job_main "events" "v1" "parquet" (fun _ => .error "malformed") "SELECT x"
        [⟨⟨["a"]⟩, [["1"], ["2"], ["3"]]⟩] none "snappy").metadata.map Metadata.rows
      = some 0 :=
  ⟨(C10_metadata_records_estimate "events" "v1" "parquet" (fun _ => .error "malformed")
      "SELECT x" [⟨⟨["a"]⟩, [["1"], ["2"], ["3"]]⟩] "snappy").1,
   (C10_metadata_records_estimate "events" "v1" "parquet" (fun _ => .error "malformed")
      "SELECT x" [⟨⟨["a"]⟩, [["1"], ["2"], ["3"]]⟩] "snappy").2.1,
   (C10_metadata_records_estimate "events" "v1" "parquet" (fun _ => .error "malformed")
      "SELECT x" [⟨⟨["a"]⟩, [["1"], ["2"], ["3"]]⟩] "snappy").2.2 "malformed" rfl⟩

end Pipeline
